import Mathlib

/-!
Shallow embedding of `src/progress-bar.py` (class `ProgressBar`).

Numbers: Python `int` is `Int`; Python `float` is modelled by `ℚ` (every
arithmetic step the claims exercise is exact in binary floating point at the
magnitudes involved, so the rational model agrees with the float one there).
Python `round` (banker's rounding, ties to even) is `pyRound`; `round(x, 4)`
is `round4`.  A raised `ZeroDivisionError` is modelled explicitly: the update
result carries an `error` field and the fields of effects never reached stay
`none`.  The clock (`perf_counter`) is passed in as explicit time arguments.
Console colouring (`colorama.Fore`) and cursor control (`cursor.show` /
`cursor.hide`) are external capabilities: the embedding records which colour
roles and which cursor action the code selects, and the output string carries
the printable characters without escape sequences.  `print(..., end=c)` is
modelled as the printed text in `output` plus the terminator in `endChar`.
-/

/-- A Python value, as far as the constructor's `isinstance` checks care:
an int, a str, a float, or `None`. -/
inductive PyVal where
  | int : Int → PyVal
  | str : String → PyVal
  | float : ℚ → PyVal
  | none : PyVal
deriving DecidableEq

/-- `colorama.Fore` colours the source uses. -/
inductive Color where
  | green | red | yellow | black
deriving DecidableEq

/-- The colour-role dictionary `COLORS` built in `update` (keys `"text"`,
`"progress"`, `"remaining"`). -/
structure Colors where
  text : Color
  progress : Color
  remaining : Color
deriving DecidableEq

/-- The cursor-visibility call made during `update`: `cursor.show()` is
`shown`, `cursor.hide()` is `hidden`. -/
inductive CursorAction where
  | shown | hidden
deriving DecidableEq

/-- The one runtime error `update` can raise: Python's `ZeroDivisionError`. -/
inductive PyError where
  | zeroDivisionError
deriving DecidableEq

/-- Python `round(q)`: nearest integer, ties to even. -/
def pyRound (q : ℚ) : Int :=
  if q - ⌊q⌋ < 1 / 2 then ⌊q⌋
  else if 1 / 2 < q - ⌊q⌋ then ⌊q⌋ + 1
  else if ⌊q⌋ % 2 = 0 then ⌊q⌋ else ⌊q⌋ + 1

/-- Python `round(q, 4)`: nearest multiple of `1 / 10000`, ties to even. -/
def round4 (q : ℚ) : ℚ := (pyRound (q * 10000) : ℚ) / 10000

/-- Python `c * n` on a one-character string: `n` copies of `c`, empty when
`n` is negative. -/
def pyRepeat (c : Char) (n : Int) : String := String.mk (List.replicate n.toNat c)

/-- Python `str.zfill(w)`: left-pad with `'0'` to width `w`, keeping a
leading sign in front of the padding. -/
def zfill (w : Nat) (s : String) : String :=
  if w ≤ s.length then s
  else
    match s.data with
    | '-' :: rest => String.mk ('-' :: (List.replicate (w - s.length) '0' ++ rest))
    | _ => String.mk (List.replicate (w - s.length) '0') ++ s

/-- Python `str.rjust(w)`: left-pad with spaces to width `w`. -/
def rjust (w : Nat) (s : String) : String :=
  if w ≤ s.length then s else String.mk (List.replicate (w - s.length) ' ') ++ s

/-- Python `f"\x7bq:.2f\x7d"`: the value rounded to two decimals (ties to
even) and printed with exactly two digits after the point. -/
def formatFixed2 (q : ℚ) : String :=
  let n : Int := pyRound (q * 100)
  let sign : String := if n < 0 then "-" else ""
  let m : Nat := n.natAbs
  sign ++ toString (m / 100) ++ "." ++ zfill 2 (toString (m % 100))

/-- The ETA formula of `update` (line 178 of the source):
`(elapsed / progress) * (1 - progress) + 1`. -/
def etaOf (elapsed progress : ℚ) : ℚ := elapsed / progress * (1 - progress) + 1

/-- The ETA display of `update` (line 179): minutes `int(eta // 60)` and
seconds `int(eta % 60)`, each zero-filled to two digits, joined by `":"`.
Python's float `%` with positive divisor lands in `[0, 60)`, where `int`
truncation is the floor. -/
def etaFormat (eta : ℚ) : String :=
  zfill 2 (toString ⌊eta / 60⌋) ++ ":" ++ zfill 2 (toString ⌊eta - 60 * (⌊eta / 60⌋ : ℚ)⌋)

/-- `ICON` selection (line 160): the done glyph at an exactly-1 progress,
the in-progress glyph otherwise. -/
def iconFor (q : ℚ) : Char := if q = 1 then '√' else '@'

/-- `COLORS` selection (lines 161-165). -/
def colorsFor (q : ℚ) : Colors :=
  { text := if q = 1 then Color.green else Color.red
    progress := if q = 1 then Color.green else Color.yellow
    remaining := Color.black }

/-- Cursor selection (lines 169-172): shown at exactly 1, hidden otherwise. -/
def cursorFor (q : ℚ) : CursorAction :=
  if q = 1 then CursorAction.shown else CursorAction.hidden

/-- `self._progress` right after construction (line 42): `1e-12`. -/
def initialProgress : ℚ := 1 / 1000000000000

/-- The state of a `ProgressBar` object: `_start`, `_total`, `_text`,
`_width`, `_progress` and the `LAST` attribute set at the end of a rendered
update. -/
structure ProgressBar where
  start : Option ℚ
  total : Int
  text : String
  width : Int
  progress : ℚ
  last : Option ℚ
deriving DecidableEq

/-- `ProgressBar.__init__`: runs the `total`, `text` and `width` setters in
order; each raises `ValueError` on a value of the wrong type, and a `None`
width defaults to `80 - (len(text) + 15)`.  A raised error yields no object,
so construction is atomic. -/
def initProgressBar (total text width : PyVal) : Except String ProgressBar :=
  match total with
  | .int t =>
    match text with
    | .str s =>
      match width with
      | .none =>
        .ok { start := Option.none, total := t, text := s,
              width := 80 - ((s.length : Int) + 15),
              progress := initialProgress, last := Option.none }
      | .int w =>
        .ok { start := Option.none, total := t, text := s, width := w,
              progress := initialProgress, last := Option.none }
      | _ => .error "Width must be an integer."
    | _ => .error "Text must be a string."
  | _ => .error "Total iterations must be an integer."

/-- `true` exactly on the `.ok` branch of an `Except`. -/
def exceptOk {ε α : Type} : Except ε α → Bool
  | .ok _ => true
  | .error _ => false

/-- Modelled from the spec (section 7): construction succeeds exactly when
`total` is an integer, the label is text, and the width is unset or an
integer.  Spec-side definition, to be compared with `initProgressBar`. -/
def specValidConstruction (total text width : PyVal) : Bool :=
  (match total with | .int _ => true | _ => false)
    && (match text with | .str _ => true | _ => false)
    && (match width with | .none => true | .int _ => true | _ => false)

/-- Everything one call to `update` does: the new object state, the cursor
action taken (if the call got that far), the `ICON` and `COLORS` selected,
the local percentage / completed / remaining values that were rendered, the
printed text and its `print` terminator, and the error raised, if any. -/
structure UpdateResult where
  pb : ProgressBar
  cursor : Option CursorAction
  icon : Option Char
  colors : Option Colors
  percentage : Option ℚ
  completed : Option Int
  remaining : Option Int
  output : Option String
  endChar : Option Char
  error : Option PyError
deriving DecidableEq

/-- Lines 159-201 of `update`, from the `ICON` selection to the `print`:
reached with the (possibly epsilon-reset) stored progress in `pb.progress`
and the pre-reset local `percentage`, `completed`, `remaining`.  When the
stored progress is `0` the ETA division raises `ZeroDivisionError` after the
cursor call and before any printing. -/
def renderPhase (pb : ProgressBar) (percentage : ℚ) (completed remaining : Int)
    (elapsed t2 : ℚ) : UpdateResult :=
  let icon := iconFor pb.progress
  let colors := colorsFor pb.progress
  let cursor := cursorFor pb.progress
  if pb.progress = 0 then
    { pb := pb, cursor := some cursor, icon := some icon, colors := some colors,
      percentage := Option.none, completed := Option.none, remaining := Option.none,
      output := Option.none, endChar := Option.none,
      error := some PyError.zeroDivisionError }
  else
    let eta := etaOf elapsed pb.progress
    let pfmt := rjust 6 (formatFixed2 percentage) ++ " %"
    let bar := pyRepeat '━' completed ++ pyRepeat '━' remaining
    if pb.progress < 1 then
      { pb := { pb with last := some t2 }, cursor := some cursor,
        icon := some icon, colors := some colors,
        percentage := some percentage, completed := some completed,
        remaining := some remaining,
        output := some (" " ++ String.singleton icon ++ " " ++ pb.text ++ " "
          ++ bar ++ " [" ++ pfmt ++ "] ETA: " ++ etaFormat eta),
        endChar := some '\r', error := Option.none }
    else
      { pb := { pb with last := some t2 }, cursor := some cursor,
        icon := some icon, colors := some colors,
        percentage := some percentage, completed := some completed,
        remaining := some remaining,
        output := some (" " ++ String.singleton icon ++ " " ++ pb.text ++ " "
          ++ bar ++ " [" ++ pfmt ++ "] Elapsed: " ++ formatFixed2 elapsed ++ "s"),
        endChar := some '\n', error := Option.none }

/-- `ProgressBar.update(current)`.  `t0` is the `perf_counter` reading used
when `_start` is still unset, `t1` the reading taken for `elapsed`, `t2` the
reading stored into `LAST`.  Mirrors the source line by line: the stored
progress is overwritten with `current / total` before any boundary check; a
negative fraction resets the stored progress to `1e-12` but the current
render keeps the pre-reset locals; a fraction above 1 returns before any
cursor call or printing. -/
def ProgressBar.update (pb : ProgressBar) (current : Int) (t0 t1 t2 : ℚ) : UpdateResult :=
  let start := pb.start.getD t0
  let pb1 := { pb with start := some start }
  if pb1.total = 0 then
    { pb := pb1, cursor := Option.none, icon := Option.none, colors := Option.none,
      percentage := Option.none, completed := Option.none, remaining := Option.none,
      output := Option.none, endChar := Option.none,
      error := some PyError.zeroDivisionError }
  else
    let progress : ℚ := (current : ℚ) / (pb1.total : ℚ)
    let pb2 := { pb1 with progress := progress }
    let percentage := round4 (progress * 100)
    let completed := pyRound (progress * (pb2.width : ℚ))
    let remaining := pb2.width - completed
    let percentage := if percentage ≤ 100 then percentage else 100
    if progress < 0 then
      renderPhase { pb2 with progress := initialProgress } percentage completed
        remaining (t1 - start) t2
    else if 1 < progress then
      { pb := pb2, cursor := Option.none, icon := Option.none, colors := Option.none,
        percentage := Option.none, completed := Option.none, remaining := Option.none,
        output := Option.none, endChar := Option.none, error := Option.none }
    else
      renderPhase pb2 percentage completed remaining (t1 - start) t2

/-- Run `update` once per entry of `cs` on one tracker, threading the state;
all calls share the same three clock readings (the claims checked on such a
run do not depend on the clock). -/
def runSeq (pb : ProgressBar) (cs : List Int) (t0 t1 t2 : ℚ) :
    ProgressBar × List UpdateResult :=
  match cs with
  | [] => (pb, [])
  | c :: rest =>
    let r := pb.update c t0 t1 t2
    let (pbF, rs) := runSeq r.pb rest t0 t1 t2
    (pbF, r :: rs)

/-- A tracker fresh from `ProgressBar(n)` with the default text `"Progress"`
and the derived default width `80 - (8 + 15) = 57`. -/
def pbOf (n : Int) : ProgressBar :=
  { start := Option.none, total := n, text := "Progress", width := 57,
    progress := initialProgress, last := Option.none }

/-- `pbOf` is exactly what the constructor produces on `(n, "Progress", None)`. -/
lemma initProgressBar_pbOf (n : Int) :
    initProgressBar (.int n) (.str "Progress") .none = .ok (pbOf n) := rfl

/-- The arguments of the update calls of testable property 3, after the
correction: `1, 2, ..., 100`. -/
def c2Inputs : List Int := (List.range 100).map (fun (n : ℕ) => (n : Int) + 1)

/-- The results of running those hundred updates on a fresh `pbOf 100`. -/
def c2Results : List UpdateResult := (runSeq (pbOf 100) c2Inputs 0 0 0).2


/-! ### Helper lemmas -/

/-- Banker's rounding never lands above the floor plus one. -/
lemma pyRound_le_floor_add_one (q : ℚ) : pyRound q ≤ ⌊q⌋ + 1 := by
  unfold pyRound
  split_ifs <;> omega

/-- The four-decimal rounding of a value below 100 is at most 100, so the
display clamp of line 152 is a no-op on it. -/
lemma round4_le_100 {q : ℚ} (h : q < 100) : round4 q ≤ 100 := by
  unfold round4
  rw [div_le_iff₀ (by norm_num : (0 : ℚ) < 10000)]
  have h1 : pyRound (q * 10000) ≤ ⌊q * 10000⌋ + 1 := pyRound_le_floor_add_one _
  have h2 : ⌊q * 10000⌋ < 1000000 := by
    rw [Int.floor_lt]
    push_cast
    nlinarith
  have h3 : pyRound (q * 10000) ≤ 1000000 := by omega
  calc (pyRound (q * 10000) : ℚ) ≤ (1000000 : ℚ) := by exact_mod_cast h3
    _ = 100 * 10000 := by norm_num

/-- Banker's rounding is the identity on integers. -/
lemma pyRound_intCast (n : Int) : pyRound (n : ℚ) = n := by
  unfold pyRound
  norm_num

/-- Four-decimal rounding is the identity on integers. -/
lemma round4_intCast (n : Int) : round4 (n : ℚ) = (n : ℚ) := by
  unfold round4
  rw [show ((n : ℚ) * 10000) = ((n * 10000 : Int) : ℚ) by push_cast; ring,
    pyRound_intCast]
  push_cast
  rw [mul_div_cancel_right₀ _ (by norm_num : (10000 : ℚ) ≠ 0)]

/-- One update with `total = 100` and `1 ≤ current ≤ 100`: no error, a line
is printed, the rendered percentage is exactly `current`, the stored fraction
is `1` exactly when `current = 100`, and `total` is preserved. -/
lemma update_step (pb : ProgressBar) (c : Int) (t0 t1 t2 : ℚ)
    (htot : pb.total = 100) (h1 : 1 ≤ c) (h2 : c ≤ 100) :
    (pb.update c t0 t1 t2).error = Option.none ∧
    (pb.update c t0 t1 t2).output ≠ Option.none ∧
    (pb.update c t0 t1 t2).percentage = some (c : ℚ) ∧
    ((pb.update c t0 t1 t2).pb.progress = 1 ↔ c = 100) ∧
    (pb.update c t0 t1 t2).pb.total = 100 := by
  have hc0 : (0 : ℚ) < (c : ℚ) := by exact_mod_cast h1.trans_lt' (by norm_num)
  have hc100 : (c : ℚ) ≤ 100 := by exact_mod_cast h2
  have hfnn : ¬ ((c : ℚ) / 100 < 0) := not_lt.2 (by positivity)
  have hfle : ¬ (1 < (c : ℚ) / 100) :=
    not_lt.2 ((div_le_one (by norm_num : (0 : ℚ) < 100)).mpr hc100)
  have hfne : (c : ℚ) / 100 ≠ 0 := ne_of_gt (by positivity)
  have hpct : round4 ((c : ℚ) / 100 * 100) = (c : ℚ) := by
    rw [div_mul_cancel₀ _ (by norm_num : (100 : ℚ) ≠ 0)]
    exact round4_intCast c
  have hiff : ((c : ℚ) / 100 = 1) ↔ (c = 100) := by
    rw [div_eq_one_iff_eq (by norm_num : (100 : ℚ) ≠ 0)]
    exact_mod_cast Iff.rfl
  by_cases hlt : (c : ℚ) / 100 < 1 <;>
    norm_num [ProgressBar.update, renderPhase, htot, hfnn, hfle, hfne, hpct, hc100,
      hiff, hlt, iconFor, colorsFor, cursorFor, round4_intCast, Option.some_ne_none]

/-- Threaded run of updates with `total = 100` and all arguments in
`[1, 100]`: every call succeeds and prints, the rendered percentages are the
arguments themselves, and the stored fraction hits `1` exactly at the
arguments equal to `100`. -/
lemma runSeq_props (cs : List Int) : ∀ (pb : ProgressBar), pb.total = 100 →
    (∀ c ∈ cs, 1 ≤ c ∧ c ≤ 100) →
    (∀ r ∈ (runSeq pb cs 0 0 0).2, r.error = Option.none ∧ r.output ≠ Option.none) ∧
    ((runSeq pb cs 0 0 0).2.filterMap fun r => r.percentage)
      = cs.map (fun c => (Int.cast c : ℚ)) ∧
    ((runSeq pb cs 0 0 0).2.map fun r => decide (r.pb.progress = 1))
      = cs.map (fun c => decide (c = 100)) := by
  induction cs with
  | nil => intro pb _ _; simp [runSeq]
  | cons c rest ih =>
    intro pb htot hmem
    have hc := hmem c (List.mem_cons_self c rest)
    have hstep := update_step pb c 0 0 0 htot hc.1 hc.2
    have hrest := ih (pb.update c 0 0 0).pb hstep.2.2.2.2
      (fun x hx => hmem x (List.mem_cons_of_mem c hx))
    refine ⟨?_, ?_, ?_⟩
    · intro r hr
      rcases List.mem_cons.1 (by simpa [runSeq] using hr) with h | h
      · exact h ▸ ⟨hstep.1, hstep.2.1⟩
      · exact hrest.1 r h
    · simp only [runSeq, List.filterMap_cons, hstep.2.2.1, List.map_cons]
      rw [hrest.2.1]
    · simp only [runSeq, List.map_cons]
      rw [hrest.2.2, decide_eq_decide.2 hstep.2.2.2.1]

/-! ### Claims -/

/-- C1, counterexample: with `total = 10`, after `update(10)` the stored
fraction is `1`; the overshooting `update(11)` prints nothing but overwrites
the stored fraction with `11/10`, so the state is NOT left at its last valid
value as the claim states. -/
theorem C1_counterexample :
    (((pbOf 10).update 10 0 1 1).pb.update 11 2 3 3).output = Option.none ∧
    ((pbOf 10).update 10 0 1 1).pb.progress = 1 ∧
    (((pbOf 10).update 10 0 1 1).pb.update 11 2 3 3).pb.progress = 11 / 10 ∧
    ¬ (((pbOf 10).update 10 0 1 1).pb.update 11 2 3 3).pb.progress
        = ((pbOf 10).update 10 0 1 1).pb.progress := by
  norm_num [ProgressBar.update, renderPhase, pbOf, initialProgress, iconFor,
    colorsFor, cursorFor, round4, pyRound, etaOf]

/-- C1, amended: a call whose computed fraction exceeds 1 produces no console
output, no cursor call and no error, but stores the overshoot fraction
`current / total` itself; `startTime` is set if it was unset, and every other
attribute (`total`, label, width, `LAST`) is unchanged. -/
theorem C1_amended_overshoot (pb : ProgressBar) (current : Int) (t0 t1 t2 : ℚ)
    (h : 1 < (current : ℚ) / (pb.total : ℚ)) :
    (pb.update current t0 t1 t2).output = Option.none ∧
    (pb.update current t0 t1 t2).endChar = Option.none ∧
    (pb.update current t0 t1 t2).cursor = Option.none ∧
    (pb.update current t0 t1 t2).error = Option.none ∧
    (pb.update current t0 t1 t2).pb.progress = (current : ℚ) / (pb.total : ℚ) ∧
    (pb.update current t0 t1 t2).pb.total = pb.total ∧
    (pb.update current t0 t1 t2).pb.text = pb.text ∧
    (pb.update current t0 t1 t2).pb.width = pb.width ∧
    (pb.update current t0 t1 t2).pb.last = pb.last ∧
    (pb.update current t0 t1 t2).pb.start = some (pb.start.getD t0) := by
  have htQ : (pb.total : ℚ) ≠ 0 := by
    intro h0
    rw [h0, div_zero] at h
    exact absurd h (by norm_num)
  have ht : pb.total ≠ 0 := by exact_mod_cast htQ
  have hnn : ¬ ((current : ℚ) / (pb.total : ℚ) < 0) :=
    not_lt.2 (le_of_lt (lt_trans one_pos h))
  norm_num [ProgressBar.update, ht, hnn, h]

/-- Witness for the amended C1 at `total = 10`, `update(11)`. -/
theorem C1_amended_overshoot_witness :
    1 < ((11 : Int) : ℚ) / ((pbOf 10).total : ℚ) ∧
    ((pbOf 10).update 11 0 0 0).output = Option.none ∧
    ((pbOf 10).update 11 0 0 0).endChar = Option.none ∧
    ((pbOf 10).update 11 0 0 0).cursor = Option.none ∧
    ((pbOf 10).update 11 0 0 0).error = Option.none ∧
    ((pbOf 10).update 11 0 0 0).pb.progress = ((11 : Int) : ℚ) / ((pbOf 10).total : ℚ) ∧
    ((pbOf 10).update 11 0 0 0).pb.total = (pbOf 10).total ∧
    ((pbOf 10).update 11 0 0 0).pb.text = (pbOf 10).text ∧
    ((pbOf 10).update 11 0 0 0).pb.width = (pbOf 10).width ∧
    ((pbOf 10).update 11 0 0 0).pb.last = (pbOf 10).last ∧
    ((pbOf 10).update 11 0 0 0).pb.start = some ((pbOf 10).start.getD 0) :=
  ⟨by norm_num [pbOf], C1_amended_overshoot (pbOf 10) 11 0 0 0 (by norm_num [pbOf])⟩

/-- C2, counterexample: with `total = 100`, the very first prescribed call
`update(0)` does not succeed: the stored fraction becomes `0` and the ETA
division raises `ZeroDivisionError` before anything is printed. -/
theorem C2_counterexample :
    ((pbOf 100).update 0 0 0 0).error = some PyError.zeroDivisionError ∧
    ((pbOf 100).update 0 0 0 0).output = Option.none := by
  norm_num [ProgressBar.update, renderPhase, pbOf, initialProgress, iconFor,
    colorsFor, cursorFor]

/-- C2, amended: with `total = 100`, calling `update(i)` for `i = 1, ..., 100`
in increasing order succeeds at every call (no error, a line printed), the
rendered percentages are non-decreasing, and the stored fraction equals `1`
exactly once along the sequence, at `i = 100`. -/
theorem C2_amended :
    (∀ r ∈ c2Results, r.error = Option.none ∧ r.output ≠ Option.none) ∧
    List.Chain' (· ≤ ·) (c2Results.filterMap fun r => r.percentage) ∧
    (c2Results.map fun r => decide (r.pb.progress = 1))
      = List.replicate 99 false ++ [true] := by
  have hmem : ∀ c ∈ c2Inputs, 1 ≤ c ∧ c ≤ 100 := by
    intro c hc
    simp only [c2Inputs, List.mem_map, List.mem_range] at hc
    obtain ⟨n, hn, rfl⟩ := hc
    omega
  have h := runSeq_props c2Inputs (pbOf 100) rfl hmem
  refine ⟨h.1, ?_, ?_⟩
  · rw [show c2Results = (runSeq (pbOf 100) c2Inputs 0 0 0).2 from rfl, h.2.1]
    rw [c2Inputs, List.map_map]
    rw [List.chain'_map]
    rw [show (100 : ℕ) = Nat.succ 99 from rfl, List.chain'_range_succ]
    intro m hm
    simp only [Function.comp, Nat.succ_eq_add_one]
    push_cast
    linarith
  · rw [show c2Results = (runSeq (pbOf 100) c2Inputs 0 0 0).2 from rfl, h.2.2]
    decide

/-- C3: on a tracker with positive `total` and non-negative stored progress,
`update(0)` stores fraction exactly `0` (the epsilon reset fires only
strictly below zero), hides the cursor, and the ETA division raises
`ZeroDivisionError` before anything is printed. -/
theorem C3_update_zero_raises (pb : ProgressBar) (t0 t1 t2 : ℚ)
    (hpos : 0 < pb.total) (hnn : 0 ≤ pb.progress) :
    (pb.update 0 t0 t1 t2).error = some PyError.zeroDivisionError ∧
    (pb.update 0 t0 t1 t2).pb.progress = 0 ∧
    (pb.update 0 t0 t1 t2).output = Option.none ∧
    (pb.update 0 t0 t1 t2).cursor = some CursorAction.hidden := by
  have ht : pb.total ≠ 0 := hpos.ne'
  norm_num [ProgressBar.update, renderPhase, ht, cursorFor, iconFor, colorsFor]

/-- Witness for C3 at a fresh tracker with `total = 100`. -/
theorem C3_update_zero_raises_witness :
    0 < (pbOf 100).total ∧ 0 ≤ (pbOf 100).progress ∧
    ((pbOf 100).update 0 0 0 0).error = some PyError.zeroDivisionError ∧
    ((pbOf 100).update 0 0 0 0).pb.progress = 0 ∧
    ((pbOf 100).update 0 0 0 0).output = Option.none ∧
    ((pbOf 100).update 0 0 0 0).cursor = some CursorAction.hidden :=
  ⟨by norm_num [pbOf], by norm_num [pbOf, initialProgress],
    C3_update_zero_raises (pbOf 100) 0 0 0 (by norm_num [pbOf])
      (by norm_num [pbOf, initialProgress])⟩

/-- C4: a call whose computed fraction is strictly negative resets the stored
fraction to the epsilon floor `1e-12` (the fresh-constructor value), while
the current call still renders: the rendered percentage and both cell counts
are computed from the pre-reset negative fraction, a line is printed with a
carriage-return terminator, and no error is raised. -/
theorem C4_negative_reset (pb : ProgressBar) (current : Int) (t0 t1 t2 : ℚ)
    (h : (current : ℚ) / (pb.total : ℚ) < 0) :
    (pb.update current t0 t1 t2).pb.progress = initialProgress ∧
    (pb.update current t0 t1 t2).percentage
      = some (round4 ((current : ℚ) / (pb.total : ℚ) * 100)) ∧
    (pb.update current t0 t1 t2).completed
      = some (pyRound ((current : ℚ) / (pb.total : ℚ) * (pb.width : ℚ))) ∧
    (pb.update current t0 t1 t2).remaining
      = some (pb.width - pyRound ((current : ℚ) / (pb.total : ℚ) * (pb.width : ℚ))) ∧
    (pb.update current t0 t1 t2).output ≠ Option.none ∧
    (pb.update current t0 t1 t2).endChar = some '\r' ∧
    (pb.update current t0 t1 t2).error = Option.none := by
  have htQ : (pb.total : ℚ) ≠ 0 := by
    intro h0
    rw [h0, div_zero] at h
    exact absurd h (by norm_num)
  have ht : pb.total ≠ 0 := by exact_mod_cast htQ
  have hclamp : round4 ((current : ℚ) / (pb.total : ℚ) * 100) ≤ 100 :=
    round4_le_100 (by linarith)
  norm_num [ProgressBar.update, renderPhase, ht, h, hclamp, initialProgress,
    iconFor, colorsFor, cursorFor, Option.some_ne_none]

/-- Witness for C4 at `total = 10`, `update(-1)` (the spec's own example). -/
theorem C4_negative_reset_witness :
    ((-1 : Int) : ℚ) / ((pbOf 10).total : ℚ) < 0 ∧
    ((pbOf 10).update (-1) 0 0 0).pb.progress = initialProgress ∧
    ((pbOf 10).update (-1) 0 0 0).percentage
      = some (round4 (((-1 : Int) : ℚ) / ((pbOf 10).total : ℚ) * 100)) ∧
    ((pbOf 10).update (-1) 0 0 0).completed
      = some (pyRound (((-1 : Int) : ℚ) / ((pbOf 10).total : ℚ) * ((pbOf 10).width : ℚ))) ∧
    ((pbOf 10).update (-1) 0 0 0).remaining
      = some ((pbOf 10).width
          - pyRound (((-1 : Int) : ℚ) / ((pbOf 10).total : ℚ) * ((pbOf 10).width : ℚ))) ∧
    ((pbOf 10).update (-1) 0 0 0).output ≠ Option.none ∧
    ((pbOf 10).update (-1) 0 0 0).endChar = some '\r' ∧
    ((pbOf 10).update (-1) 0 0 0).error = Option.none :=
  ⟨by norm_num [pbOf], C4_negative_reset (pbOf 10) (-1) 0 0 0 (by norm_num [pbOf])⟩

/-- C5: completion is recognised exactly at stored fraction `1` (glyph,
cursor and colour selection each hold iff the fraction is exactly `1`); and
for `total = 1`, the first and only call `update(1)` sets `startTime` on that
call, stores fraction `1`, selects the done glyph and done colours, shows the
cursor, and prints a line ending in `Elapsed: 5.00s` terminated by a newline
rather than a carriage return. -/
theorem C5_exact_completion :
    (∀ q : ℚ, iconFor q = '√' ↔ q = 1) ∧
    (∀ q : ℚ, cursorFor q = CursorAction.shown ↔ q = 1) ∧
    (∀ q : ℚ, (colorsFor q).text = Color.green ↔ q = 1) ∧
    ((pbOf 1).update 1 0 5 6).pb.start = some 0 ∧
    ((pbOf 1).update 1 0 5 6).pb.progress = 1 ∧
    ((pbOf 1).update 1 0 5 6).icon = some '√' ∧
    ((pbOf 1).update 1 0 5 6).colors
      = some { text := Color.green, progress := Color.green, remaining := Color.black } ∧
    ((pbOf 1).update 1 0 5 6).cursor = some CursorAction.shown ∧
    ((pbOf 1).update 1 0 5 6).output
      = some " √ Progress ━━━━━━━━━━━━━━━━━━━━━━━━━━━━━━━━━━━━━━━━━━━━━━━━━━━━━━━━━ [100.00 %] Elapsed: 5.00s" ∧
    ((pbOf 1).update 1 0 5 6).endChar = some '\n' := by
  refine ⟨fun q => ?_, fun q => ?_, fun q => ?_, ?_, ?_, ?_, ?_, ?_, ?_, ?_⟩
  · unfold iconFor
    split_ifs with hq
    · exact iff_of_true rfl hq
    · exact iff_of_false (by decide) hq
  · unfold cursorFor
    split_ifs with hq
    · exact iff_of_true rfl hq
    · exact iff_of_false (by decide) hq
  · simp only [colorsFor]
    split_ifs with hq
    · exact iff_of_true rfl hq
    · exact iff_of_false (by decide) hq
  all_goals
    norm_num [ProgressBar.update, renderPhase, pbOf, initialProgress, iconFor,
      colorsFor, cursorFor, etaOf, round4, pyRound, etaFormat, formatFixed2,
      zfill, rjust, pyRepeat]
  rfl

/-- C6: the ETA of a rendering update is `(elapsed / fraction) *
(1 - fraction) + 1`, formatted as `MM:SS` with two-digit zero-padded seconds
and minutes free to exceed 59; in particular `elapsed = 10`, `fraction = 1/2`
gives `11` seconds, shown as `00:11` (checked on the rendered line of
`update(1)` with `total = 2` at elapsed time `10`). -/
theorem C6_eta :
    (∀ e f : ℚ, etaOf e f = e / f * (1 - f) + 1) ∧
    etaOf 10 (1 / 2) = 11 ∧
    etaFormat (etaOf 10 (1 / 2)) = "00:11" ∧
    etaFormat 3661 = "61:01" ∧
    ((pbOf 2).update 1 0 10 10).output
      = some " @ Progress ━━━━━━━━━━━━━━━━━━━━━━━━━━━━━━━━━━━━━━━━━━━━━━━━━━━━━━━━━ [ 50.00 %] ETA: 00:11" ∧
    ((pbOf 2).update 1 0 10 10).endChar = some '\r' := by
  refine ⟨fun e f => rfl, by norm_num [etaOf], ?_, ?_, ?_, ?_⟩
  · norm_num [etaOf, etaFormat, zfill]
    rfl
  · norm_num [etaFormat, zfill]
    rfl
  · norm_num [ProgressBar.update, renderPhase, pbOf, initialProgress, iconFor,
      colorsFor, cursorFor, etaOf, round4, pyRound, etaFormat, formatFixed2,
      zfill, rjust, pyRepeat]
    rfl
  · norm_num [ProgressBar.update, renderPhase, pbOf, initialProgress, iconFor,
      colorsFor, cursorFor, etaOf, round4, pyRound]

/-- C7, counterexample: the in-progress line for `total = 10`, `update(5)` at
elapsed `10` carries a space between the six-wide percentage and the percent
sign: the bracket segment is `[ 50.00 %]`, not the `[ 50.00%]` the claim's
layout (percentage immediately followed by `%]`) prescribes. -/
theorem C7_counterexample :
    ((pbOf 10).update 5 0 10 10).endChar = some '\r' ∧
    ((pbOf 10).update 5 0 10 10).output
      = some " @ Progress ━━━━━━━━━━━━━━━━━━━━━━━━━━━━━━━━━━━━━━━━━━━━━━━━━━━━━━━━━ [ 50.00 %] ETA: 00:11" ∧
    ((pbOf 10).update 5 0 10 10).output
      ≠ some " @ Progress ━━━━━━━━━━━━━━━━━━━━━━━━━━━━━━━━━━━━━━━━━━━━━━━━━━━━━━━━━ [ 50.00%] ETA: 00:11" := by
  have hout : ((pbOf 10).update 5 0 10 10).output
      = some " @ Progress ━━━━━━━━━━━━━━━━━━━━━━━━━━━━━━━━━━━━━━━━━━━━━━━━━━━━━━━━━ [ 50.00 %] ETA: 00:11" := by
    norm_num [ProgressBar.update, renderPhase, pbOf, initialProgress, iconFor,
      colorsFor, cursorFor, etaOf, round4, pyRound, etaFormat, formatFixed2,
      zfill, rjust, pyRepeat]
    rfl
  refine ⟨?_, hout, ?_⟩
  · norm_num [ProgressBar.update, renderPhase, pbOf, initialProgress, iconFor,
      colorsFor, cursorFor, round4, pyRound]
  · rw [hout]
    decide

/-- C7, amended: every in-progress render (computed fraction strictly below 1
and nonzero, so the call actually renders) emits exactly one line consisting
of, in order: leading space, status glyph, space, label, space, filled-cell
run, empty-cell run, space, `[`, percentage right-justified to width 6 with
2 decimal places, space, `%]`, space, `ETA: `, MM:SS, terminated with a
carriage return and no newline.  The ETA is computed from the stored
fraction, which is the epsilon floor when the computed fraction was
negative. -/
theorem C7_amended_layout (pb : ProgressBar) (current : Int) (t0 t1 t2 : ℚ)
    (h1 : (current : ℚ) / (pb.total : ℚ) < 1)
    (h0 : (current : ℚ) / (pb.total : ℚ) ≠ 0) :
    (pb.update current t0 t1 t2).output
      = some (" " ++ String.singleton '@' ++ " " ++ pb.text ++ " "
        ++ (pyRepeat '━' (pyRound ((current : ℚ) / (pb.total : ℚ) * (pb.width : ℚ)))
            ++ pyRepeat '━'
              (pb.width - pyRound ((current : ℚ) / (pb.total : ℚ) * (pb.width : ℚ))))
        ++ " [" ++ (rjust 6 (formatFixed2 (round4 ((current : ℚ) / (pb.total : ℚ) * 100)))
            ++ " %")
        ++ "] ETA: "
        ++ etaFormat (etaOf (t1 - pb.start.getD t0)
            (if (current : ℚ) / (pb.total : ℚ) < 0 then initialProgress
             else (current : ℚ) / (pb.total : ℚ)))) ∧
    (pb.update current t0 t1 t2).endChar = some '\r' := by
  have htQ : (pb.total : ℚ) ≠ 0 := by
    intro hz
    rw [hz, div_zero] at h0
    exact absurd rfl h0
  have ht : pb.total ≠ 0 := by exact_mod_cast htQ
  have hne1 : (current : ℚ) / (pb.total : ℚ) ≠ 1 := ne_of_lt h1
  have hngt : ¬ (1 < (current : ℚ) / (pb.total : ℚ)) := not_lt.2 h1.le
  have hclamp : round4 ((current : ℚ) / (pb.total : ℚ) * 100) ≤ 100 :=
    round4_le_100 (by linarith)
  by_cases hneg : (current : ℚ) / (pb.total : ℚ) < 0
  · norm_num [ProgressBar.update, renderPhase, ht, hne1, hngt, hclamp, hneg,
      initialProgress, iconFor, colorsFor, cursorFor]
  · norm_num [ProgressBar.update, renderPhase, ht, h0, h1, hne1, hngt, hclamp, hneg,
      iconFor, colorsFor, cursorFor]

/-- Witness for the amended C7 at `total = 10`, `update(5)`, elapsed 10. -/
theorem C7_amended_layout_witness :
    ((5 : Int) : ℚ) / ((pbOf 10).total : ℚ) < 1 ∧
    ((5 : Int) : ℚ) / ((pbOf 10).total : ℚ) ≠ 0 ∧
    ((pbOf 10).update 5 0 10 10).output
      = some (" " ++ String.singleton '@' ++ " " ++ (pbOf 10).text ++ " "
        ++ (pyRepeat '━' (pyRound (((5 : Int) : ℚ) / ((pbOf 10).total : ℚ) * ((pbOf 10).width : ℚ)))
            ++ pyRepeat '━'
              ((pbOf 10).width
                - pyRound (((5 : Int) : ℚ) / ((pbOf 10).total : ℚ) * ((pbOf 10).width : ℚ))))
        ++ " [" ++ (rjust 6 (formatFixed2 (round4 (((5 : Int) : ℚ) / ((pbOf 10).total : ℚ) * 100)))
            ++ " %")
        ++ "] ETA: "
        ++ etaFormat (etaOf (10 - (pbOf 10).start.getD 0)
            (if ((5 : Int) : ℚ) / ((pbOf 10).total : ℚ) < 0 then initialProgress
             else ((5 : Int) : ℚ) / ((pbOf 10).total : ℚ)))) ∧
    ((pbOf 10).update 5 0 10 10).endChar = some '\r' :=
  ⟨by norm_num [pbOf], by norm_num [pbOf],
    C7_amended_layout (pbOf 10) 5 0 10 10 (by norm_num [pbOf]) (by norm_num [pbOf])⟩

/-- C8: construction raises a validation error exactly when `total` is not an
integer, the label is not text, or an explicitly supplied width is not an
integer (compared against the spec-side predicate); a failure yields no
object at all, and a success stores every supplied value so the accessors
return it exactly, deriving the width `80 - (len(text) + 15)` when unset. -/
theorem C8_construction :
    (∀ t l w : PyVal, exceptOk (initProgressBar t l w) = specValidConstruction t l w) ∧
    (∀ (n : Int) (s : String) (m : Int),
      initProgressBar (.int n) (.str s) (.int m)
        = .ok { start := Option.none, total := n, text := s, width := m,
                progress := initialProgress, last := Option.none }) ∧
    (∀ (n : Int) (s : String),
      initProgressBar (.int n) (.str s) .none
        = .ok { start := Option.none, total := n, text := s,
                width := 80 - ((s.length : Int) + 15),
                progress := initialProgress, last := Option.none }) := by
  refine ⟨fun t l w => ?_, fun n s m => rfl, fun n s => rfl⟩
  cases t <;> cases l <;> cases w <;> rfl

/-- C9: on a tracker whose `total` is `0`, every `update(current)` raises
`ZeroDivisionError` from the fraction computation itself: nothing is printed,
no cursor call is made, the stored fraction is untouched, and the condition
is not pre-validated. -/
theorem C9_total_zero_raises (pb : ProgressBar) (current : Int) (t0 t1 t2 : ℚ)
    (h : pb.total = 0) :
    (pb.update current t0 t1 t2).error = some PyError.zeroDivisionError ∧
    (pb.update current t0 t1 t2).output = Option.none ∧
    (pb.update current t0 t1 t2).endChar = Option.none ∧
    (pb.update current t0 t1 t2).cursor = Option.none ∧
    (pb.update current t0 t1 t2).pb.progress = pb.progress := by
  simp [ProgressBar.update, h]

/-- Witness for C9 at a tracker constructed with `total = 0`, `update(7)`. -/
theorem C9_total_zero_raises_witness :
    (pbOf 0).total = 0 ∧
    ((pbOf 0).update 7 0 0 0).error = some PyError.zeroDivisionError ∧
    ((pbOf 0).update 7 0 0 0).output = Option.none ∧
    ((pbOf 0).update 7 0 0 0).endChar = Option.none ∧
    ((pbOf 0).update 7 0 0 0).cursor = Option.none ∧
    ((pbOf 0).update 7 0 0 0).pb.progress = (pbOf 0).progress :=
  ⟨rfl, C9_total_zero_raises (pbOf 0) 7 0 0 0 rfl⟩

/-- C10: on any tracker with positive `total`, whatever its earlier history,
`update(total)` stores fraction exactly `1` (equal integers divide to exactly
one), so the exact-equality completion tests succeed: done glyph, done
colours, cursor shown, and a printed line terminated by a newline. -/
theorem C10_exact_total_completes (pb : ProgressBar) (t0 t1 t2 : ℚ)
    (h : 0 < pb.total) :
    (pb.update pb.total t0 t1 t2).pb.progress = 1 ∧
    (pb.update pb.total t0 t1 t2).icon = some '√' ∧
    (pb.update pb.total t0 t1 t2).cursor = some CursorAction.shown ∧
    (pb.update pb.total t0 t1 t2).colors
      = some { text := Color.green, progress := Color.green, remaining := Color.black } ∧
    (pb.update pb.total t0 t1 t2).endChar = some '\n' ∧
    (pb.update pb.total t0 t1 t2).error = Option.none ∧
    (pb.update pb.total t0 t1 t2).output.isSome = true := by
  have ht : pb.total ≠ 0 := h.ne'
  have htQ : (pb.total : ℚ) ≠ 0 := Int.cast_ne_zero.mpr ht
  have hdiv : (pb.total : ℚ) / (pb.total : ℚ) = 1 := div_self htQ
  norm_num [ProgressBar.update, renderPhase, ht, hdiv, iconFor, colorsFor, cursorFor]

/-- Witness for C10 at `total = 10`, `update(10)`. -/
theorem C10_exact_total_completes_witness :
    0 < (pbOf 10).total ∧
    ((pbOf 10).update (pbOf 10).total 0 5 6).pb.progress = 1 ∧
    ((pbOf 10).update (pbOf 10).total 0 5 6).icon = some '√' ∧
    ((pbOf 10).update (pbOf 10).total 0 5 6).cursor = some CursorAction.shown ∧
    ((pbOf 10).update (pbOf 10).total 0 5 6).colors
      = some { text := Color.green, progress := Color.green, remaining := Color.black } ∧
    ((pbOf 10).update (pbOf 10).total 0 5 6).endChar = some '\n' ∧
    ((pbOf 10).update (pbOf 10).total 0 5 6).error = Option.none ∧
    ((pbOf 10).update (pbOf 10).total 0 5 6).output.isSome = true :=
  ⟨by norm_num [pbOf], C10_exact_total_completes (pbOf 10) 0 5 6 (by norm_num [pbOf])⟩
